import Mathlib

/-!
Verification development for the vahan-ai-assistant repository.

The Python modules `app/chatbot.py` and `app/analytics.py` are shallowly
embedded below: every pure computation becomes a Lean function on `String`
(viewed through its character list), the sqlite database becomes an explicit
state value, and the external chromadb vector store (an out-of-scope
collaborator, used only through `get`/`query`) becomes a record of oracle
functions whose results may be errors (`Except Unit`).

Python specifics modelled explicitly:
- `str.lower` / `str.strip` / `str.title` / `str.replace` are reimplemented on
  character lists (ASCII case mapping, which coincides with Python on the
  ASCII inputs exercised here);
- the regular expressions in the formatters are reimplemented as executable
  scanners with the same lazy/greedy semantics on the shapes of text the
  formatters are applied to;
- exception handling becomes `Except`/`Option` flow; list indexing that can
  raise `IndexError` inside a `try` block flows to the corresponding handler.

The file has two parts: all definitions first, then the theorems.
-/

set_option maxRecDepth 8000

namespace Vahan

/-! ## Basic string utilities (Python `in`, `lower`, `strip`, `replace`, `title`) -/

/-- Python whitespace characters recognised by `str.strip` (ASCII subset). -/
def isPySpace (c : Char) : Bool :=
  c = ' ' || c = '\t' || c = '\n' || c = '\r' || c = '\x0b' || c = '\x0c'

/-- Python `str.lower`, ASCII case mapping. -/
def pyLower (s : String) : String := String.mk (s.data.map Char.toLower)

/-- Python `str.strip` on a character list. -/
def stripChars (l : List Char) : List Char :=
  ((l.dropWhile isPySpace).reverse.dropWhile isPySpace).reverse

/-- Python `str.strip`. -/
def pyStrip (s : String) : String := String.mk (stripChars s.data)

/-- Substring test on character lists: `subAux p l` is true iff `p` occurs
contiguously in `l` (Python `p in l`). -/
def subAux (p : List Char) : List Char → Bool
  | [] => p.isEmpty
  | c :: rest => p.isPrefixOf (c :: rest) || subAux p rest

/-- Python substring test `p in s`. -/
def isSub (p s : String) : Bool := subAux p.data s.data

/-- Split at the first occurrence of `pat`: returns the part before the
occurrence and the part after it (the occurrence itself is dropped).
`none` when `pat` does not occur.  This is the workhorse for the lazy
(shortest-match) regex groups used by the formatters. -/
def splitFirst (pat : List Char) : List Char → Option (List Char × List Char)
  | [] => if pat.isEmpty then some ([], []) else none
  | c :: rest =>
    if pat.isPrefixOf (c :: rest) then some ([], (c :: rest).drop pat.length)
    else
      match splitFirst pat rest with
      | some (pre, post) => some (c :: pre, post)
      | none => none

/-- Python `str.replace` (all non-overlapping occurrences, left to right),
with fuel bounded by the list length. -/
def replaceAux (pat repl : List Char) : Nat → List Char → List Char
  | 0, l => l
  | _ + 1, [] => []
  | fuel + 1, c :: rest =>
    if pat.isPrefixOf (c :: rest) && !pat.isEmpty then
      repl ++ replaceAux pat repl fuel ((c :: rest).drop pat.length)
    else
      c :: replaceAux pat repl fuel rest

/-- Python `str.replace`. -/
def pyReplace (s pat repl : String) : String :=
  String.mk (replaceAux pat.data repl.data s.data.length s.data)

/-- One step of Python `str.title`: uppercase a letter that follows a
non-letter, lowercase a letter that follows a letter. -/
def titleChars : Bool → List Char → List Char
  | _, [] => []
  | prevAlpha, c :: rest =>
    if c.isAlpha then
      (if prevAlpha then c.toLower else c.toUpper) :: titleChars true rest
    else
      c :: titleChars false rest

/-- Python `str.title` (ASCII letters). -/
def pyTitle (s : String) : String := String.mk (titleChars false s.data)

/-- Python `sep.join(xs)`. -/
def joinWith (sep : String) : List String → String
  | [] => ""
  | [x] => x
  | x :: xs => x ++ sep ++ joinWith sep xs

/-- Split a character list into its lines (separator `\n`, kept out). -/
def splitLines : List Char → List (List Char)
  | [] => [[]]
  | '\n' :: rest => [] :: splitLines rest
  | c :: rest =>
    match splitLines rest with
    | [] => [[c]]
    | l :: ls => (c :: l) :: ls

/-- Remove one final newline, if present: the position where `$` matches in
a non-MULTILINE pattern is the end of the text or just before a final
newline. -/
def dropFinalNl (l : List Char) : List Char :=
  match l.reverse with
  | '\n' :: r => r.reverse
  | _ => l

/-! ## `_clean_markdown` from `app/chatbot.py`

The method applies five `re.sub` passes and a final `strip`:
`#+\s*` → removed; `(?m)^\s*-\s*(.*)` → `• \1`; `\*\*(.*?)\*\*` → `\1`;
`\*(.*?)\*` → `\1`; `\n\x7b3,\x7d` → two newlines. -/

/-- Pass 1: delete every run `#+\s*` (hashes then whitespace, both greedy). -/
def remHashes : Nat → List Char → List Char
  | 0, l => l
  | _ + 1, [] => []
  | fuel + 1, '#' :: rest =>
    remHashes fuel ((rest.dropWhile (fun c => c = '#')).dropWhile isPySpace)
  | fuel + 1, c :: rest => c :: remHashes fuel rest

/-- Pass 2: the multiline substitution `^\s*-\s*(.*)` → `• \1`.  At each
line start, greedy `\s*` (which may swallow blank lines), a dash, greedy
`\s*`, then the rest of the line become `• ` plus the rest of the line;
elsewhere characters are copied (a dash not reachable from a line start
through whitespace cannot match).  The boolean tracks being at a line
start. -/
def bulletPass : Nat → Bool → List Char → List Char
  | 0, _, l => l
  | _ + 1, _, [] => []
  | fuel + 1, atStart, c :: rest =>
    if atStart then
      match (c :: rest).dropWhile isPySpace with
      | '-' :: r2 =>
        let r3 := r2.dropWhile isPySpace
        let item := r3.takeWhile (fun d => d ≠ '\n')
        '•' :: ' ' :: item ++ bulletPass fuel false (r3.drop item.length)
      | _ => c :: bulletPass fuel (c = '\n') rest
    else c :: bulletPass fuel (c = '\n') rest

/-- Find the earliest `pat` occurrence reachable without crossing a newline
(the lazy `(.*?)` of a non-DOTALL pattern): returns the part before the
occurrence and the part after it. -/
def splitFirstNoNl (pat : List Char) : List Char → Option (List Char × List Char)
  | [] => if pat.isEmpty then some ([], []) else none
  | c :: rest =>
    if pat.isPrefixOf (c :: rest) then some ([], (c :: rest).drop pat.length)
    else if c = '\n' then none
    else
      match splitFirstNoNl pat rest with
      | some (pre, post) => some (c :: pre, post)
      | none => none

/-- Passes 3 and 4: drop paired emphasis markers `marker(.*?)marker` (no
newline inside the pair), keeping the inner text. -/
def unEmph (marker : List Char) : Nat → List Char → List Char
  | 0, l => l
  | _ + 1, [] => []
  | fuel + 1, c :: rest =>
    if marker.isPrefixOf (c :: rest) then
      match splitFirstNoNl marker ((c :: rest).drop marker.length) with
      | some (inner, after) => inner ++ unEmph marker fuel after
      | none => c :: unEmph marker fuel rest
    else c :: unEmph marker fuel rest

/-- Pass 5: collapse runs of three or more newlines to exactly two. -/
def collapseNl : Nat → List Char → List Char
  | 0, l => l
  | _ + 1, [] => []
  | fuel + 1, '\n' :: rest =>
    let run := rest.takeWhile (fun c => c = '\n')
    let rest2 := rest.dropWhile (fun c => c = '\n')
    (if run.length + 1 ≥ 3 then ['\n', '\n'] else '\n' :: run) ++ collapseNl fuel rest2
  | fuel + 1, c :: rest => c :: collapseNl fuel rest

/-- `_clean_markdown` from `app/chatbot.py`. -/
def clean_markdown (s : String) : String :=
  let l0 := s.data
  let l1 := remHashes l0.length l0
  let l2 := bulletPass l1.length true l1
  let l3 := unEmph ['*', '*'] l2.length l2
  let l4 := unEmph ['*'] l3.length l3
  let l5 := collapseNl l4.length l4
  String.mk (stripChars l5)

/-! ## `_format_pricing` table extraction

Models `re.search` with pattern
`(?s)# Pricing Plans.*?(\|.*?\|\n\|.*?\|\n(\|.*?\|\n)+)`:
after the first `# Pricing Plans` the lazy gap makes the group start at the
earliest possible position; each row `\|.*?\|\n` runs lazily from a `|` to
the nearest following `|` + newline; the trailing `+` is greedy. -/

/-- Match one table row `\|.*?\|\n` at the head of the list; returns the row
(including its trailing newline) and the remainder. -/
def matchRow (l : List Char) : Option (List Char × List Char) :=
  match l with
  | '|' :: rest =>
    match splitFirst ['|', '\n'] rest with
    | some (mid, after) => some ('|' :: (mid ++ ['|', '\n']), after)
    | none => none
  | _ => none

/-- Greedily match as many further rows as possible. -/
def matchRows : Nat → List Char → List Char × List Char
  | 0, l => ([], l)
  | fuel + 1, l =>
    match matchRow l with
    | some (row, rest) =>
      let (more, rest2) := matchRows fuel rest
      (row ++ more, rest2)
    | none => ([], l)

/-- Match the whole table group (at least three rows) at this position. -/
def matchTable (l : List Char) : Option (List Char) :=
  match matchRow l with
  | none => none
  | some (r1, rest1) =>
    match matchRow rest1 with
    | none => none
    | some (r2, rest2) =>
      match matchRow rest2 with
      | none => none
      | some (r3, rest3) =>
        let (more, _) := matchRows rest3.length rest3
        some (r1 ++ r2 ++ r3 ++ more)

/-- Scan forward (the lazy `.*?` gap) for the earliest table start. -/
def findTableFrom : Nat → List Char → Option (List Char)
  | 0, _ => none
  | fuel + 1, l =>
    match matchTable l with
    | some tbl => some tbl
    | none =>
      match l with
      | [] => none
      | _ :: rest => findTableFrom fuel rest

/-- The `table_match` group of `_format_pricing`. -/
def findPricingTable (content : String) : Option String :=
  match splitFirst ("# Pricing Plans").data content.data with
  | none => none
  | some (_, after) => (findTableFrom (after.length + 1) after).map String.mk

/-- `re.sub` of `\|\s*-+\s*\|` by `|---------|` (separator-row cleanup in
`_format_pricing`). -/
def sepSub : Nat → List Char → List Char
  | 0, l => l
  | _ + 1, [] => []
  | fuel + 1, '|' :: rest =>
    let r1 := rest.dropWhile isPySpace
    let dashes := r1.takeWhile (fun c => c = '-')
    let r3 := (r1.dropWhile (fun c => c = '-')).dropWhile isPySpace
    match dashes, r3 with
    | _ :: _, '|' :: r4 => ("|---------|").data ++ sepSub fuel r4
    | _, _ => '|' :: sepSub fuel rest
  | fuel + 1, c :: rest => c :: sepSub fuel rest

/-- Is `c` a regex word character `\w` (ASCII)? -/
def isWordChar (c : Char) : Bool :=
  c.isAlpha || c.isDigit || c = '_'

/-- Index of the last underscore in a word run, if any. -/
def lastUnderscore (run : List Char) : Option Nat :=
  match run.reverse.findIdx? (fun c => c = '_') with
  | some j => some (run.length - 1 - j)
  | none => none

/-- `re.sub` of `_\w+_\s*` by the empty string (emphasis cleanup in
`_format_pricing`).  The greedy `\w+` backtracks to the last underscore of
the word run that still leaves `\w+` non-empty. -/
def underSub : Nat → List Char → List Char
  | 0, l => l
  | _ + 1, [] => []
  | fuel + 1, '_' :: rest =>
    let run := rest.takeWhile isWordChar
    let after := rest.drop run.length
    match lastUnderscore run with
    | some k =>
      if 1 ≤ k then
        underSub fuel (((run.drop (k + 1)) ++ after).dropWhile isPySpace)
      else '_' :: underSub fuel rest
    | none => '_' :: underSub fuel rest
  | fuel + 1, c :: rest => c :: underSub fuel rest

/-! ## `_format_faq` extraction

`re.findall` with `(?s)\*\*Q: (.*?)\*\*\s*A: (.*?)(?=\n\*\*Q:|\n$)`. -/

/-- Does the answer group stop here?  The lookahead `(?=\n\*\*Q:|\n$)`
matches before `\n**Q:` or before a newline at (or just before) the end. -/
def answerEndsHere (rest : List Char) : Bool :=
  ("\n**Q:").data.isPrefixOf rest || rest = ['\n'] || rest = ['\n', '\n']

/-- Lazy scan for the end of an answer group; returns the answer and the
unconsumed remainder (the lookahead consumes nothing). -/
def findAnswerEnd : List Char → Option (List Char × List Char)
  | [] => none
  | c :: rest =>
    if answerEndsHere (c :: rest) then some ([], c :: rest)
    else
      match findAnswerEnd rest with
      | some (ans, rem) => some (c :: ans, rem)
      | none => none

/-- All Q/A pairs of `_format_faq`, scanning left to right. -/
def findQA : Nat → List Char → List (String × String)
  | 0, _ => []
  | fuel + 1, chars =>
    match splitFirst ("**Q: ").data chars with
    | none => []
    | some (_, afterQ) =>
      match splitFirst ("**").data afterQ with
      | none => []
      | some (q, afterQQ) =>
        let afterWs := afterQQ.dropWhile isPySpace
        if ("A: ").data.isPrefixOf afterWs then
          match findAnswerEnd (afterWs.drop 3) with
          | some (ans, rem) => (String.mk q, String.mk ans) :: findQA fuel rem
          | none => []
        else []

/-! ## `_format_features` extraction

`re.findall` with `(?s)## (.*?)\n(.*?)(?=##|$)` for the sections and
`(?m)^\s*-\s*(.*)` for the bullet items of each body. -/

/-- All level-2 sections (header, body) of `_format_features`. -/
def findSections : Nat → List Char → List (List Char × List Char)
  | 0, _ => []
  | fuel + 1, chars =>
    match splitFirst ("## ").data chars with
    | none => []
    | some (_, afterH) =>
      match splitFirst ['\n'] afterH with
      | none => []
      | some (hdr, body0) =>
        match splitFirst ("##").data body0 with
        | some (b, after) => (hdr, b) :: findSections fuel ('#' :: '#' :: after)
        | none => [(hdr, dropFinalNl body0)]

/-- The bullet items of a section body (`^\s*-\s*(.*)`, applied line-wise). -/
def lineItems (body : List Char) : List (List Char) :=
  (splitLines body).filterMap fun ln =>
    match ln.dropWhile isPySpace with
    | '-' :: r => some (r.dropWhile isPySpace)
    | _ => none

/-! ## `_format_api` extraction

`re.search` with `(?s)## Authentication\n(.*?)(?=##|$)` and
`re.findall` of fenced code blocks. -/

/-- The Authentication section body of `_format_api`, if present. -/
def authSection (content : String) : Option String :=
  match splitFirst ("## Authentication\n").data content.data with
  | none => none
  | some (_, after) =>
    match splitFirst ("##").data after with
    | some (sec, _) => some (String.mk sec)
    | none => some (String.mk (dropFinalNl after))

/-- The first fenced code block of a section, if any. -/
def firstCodeBlock (s : String) : Option String :=
  match splitFirst ("```").data s.data with
  | none => none
  | some (_, after) =>
    match splitFirst ("```").data after with
    | none => none
    | some (inner, _) => some (String.mk inner)

/-! ## Fixed reply texts from `app/chatbot.py` -/

/-- Reply of the uninitialized guard. -/
def initMsg : String := "System is initializing... Please try again shortly."

/-- Greeting reply. -/
def greetMsg : String :=
  "Hello! I\x27m your Vahan AI assistant. I can help you with:\n- Product features\n- Pricing information\n- API documentation\n- FAQ\n\nWhat would you like to know about?"

/-- Farewell reply. -/
def byeMsg : String :=
  "Goodbye! If you have more questions later, I can help with:\n- Technical documentation\n- Pricing plans\n- Troubleshooting\n- Feature details\n\nHave a great day!"

/-- Redirect reply for organizational-identity questions. -/
def orgMsg : String :=
  "I specialize in product information. For organizational questions:\n- Contact support@vahan.ai\n- Visit our website\x27s About page\n- Check LinkedIn for team information"

/-- Reply of the `except` branch around the semantic query. -/
def queryErrorMsg : String :=
  "I encountered an error processing your request. Please:\n- Try rephrasing your question\n- Check our documentation\n- Contact support if the problem persists"

/-- `_get_help_response` from `app/chatbot.py` (the full capability menu). -/
def get_help_response : String :=
  "I can provide detailed information about:\n\n✦ Product Features\n  - Intelligent processing\n  - Privacy controls\n  - Productivity tools\n\n✦ Pricing Plans\n  - Feature comparisons\n  - Subscription options\n  - Enterprise solutions\n\n✦ API Documentation\n  - Authentication\n  - Endpoints\n  - Code examples\n\n✦ Frequently Asked Questions\n  - Data handling\n  - System requirements\n  - Common issues\n\nWhat would you like to explore in detail?"

/-- Header of the pricing table reply. -/
def pricingHeader : String := "Here are our detailed pricing plans:\n\n"

/-- Footer of the pricing table reply. -/
def pricingFooter : String :=
  "\n\nAdditional information:\n- All plans include local processing\n- Volume discounts available\n- Annual billing saves 20%\n\nWhich plan would you like more details about?"

/-- Fallback reply of `_format_pricing` when no table is found. -/
def pricingFallback : String :=
  "For comprehensive pricing information:\n- Visit our pricing page\n- Contact sales@vahan.ai\n- Request a custom quote"

/-- Header of the FAQ reply. -/
def faqHeader : String := "Here are detailed answers to common questions:\n\n"

/-- Footer of the FAQ reply. -/
def faqFooter : String :=
  "For more FAQs:\n- Browse our complete FAQ section\n- Search for specific topics\n- Contact support for unanswered questions"

/-- Fallback reply of `_format_faq` when no Q/A pairs are found. -/
def faqFallback : String :=
  "Our FAQ covers important topics like:\n- Data privacy\n- System requirements\n- Integration options\n\nWhat specific question can I answer for you?"

/-- Header of the features reply. -/
def featuresHeader : String := "Here\x27s a comprehensive look at our features:\n\n"

/-- Footer of the features reply. -/
def featuresFooter : String :=
  "Additional capabilities include:\n- Custom workflow automation\n- Advanced analytics\n- Enterprise-grade security\n\nWhich feature would you like more details about?"

/-- Header of the API reply. -/
def apiHeader : String := "Here\x27s detailed API information:\n\n"

/-- Footer of the API reply. -/
def apiFooter : String :=
  "Additional API resources:\n- Full API reference documentation\n- Postman collection\n- Sample projects on GitHub\n\nWhat specific API question can I answer?"

/-- The 404 troubleshooting checklist of `_format_api`. -/
def checklist404 : String :=
  "For 404 errors, please verify:\n1. Endpoint URL is correct (currently: api.vahan.ai)\n2. Your API key is valid and not expired\n3. The service is operational (check status.vahan.ai)\n4. You\x27re using the correct HTTP method (POST/GET)\n\n"

/-- Header of the `_handle_no_match` suggestion reply. -/
def noMatchHeader : String := "I couldn\x27t find an exact match. You might explore:\n\n"

/-- Footer of the `_handle_no_match` suggestion reply. -/
def noMatchFooter : String :=
  "\n\nOr ask about:\n- Specific features\n- Pricing details\n- Technical requirements"

/-! ## The formatters of `app/chatbot.py` -/

/-- A conversation turn: role and content. -/
abbrev Turn := String × String

/-- `_format_pricing`. -/
def format_pricing (content : String) : String :=
  match findPricingTable content with
  | some table =>
    let t1 := sepSub table.data.length table.data
    let t2 := underSub t1.length t1
    pricingHeader ++ pyStrip (String.mk t2) ++ pricingFooter
  | none => pricingFallback

/-- Render the numbered Q/A pairs of `_format_faq`, starting at index `i`. -/
def renderQA : Nat → List (String × String) → String
  | _, [] => ""
  | i, (q, a) :: rest =>
    toString i ++ ". " ++ pyStrip q ++ "\n" ++ pyStrip (clean_markdown a) ++ "\n\n" ++
      renderQA (i + 1) rest

/-- `_format_faq`. -/
def format_faq (content : String) : String :=
  let pairs := findQA content.data.length content.data
  match pairs with
  | [] => faqFallback
  | _ :: _ => faqHeader ++ renderQA 1 (pairs.take 5) ++ faqFooter

/-- Render one section of `_format_features`. -/
def renderSection (sec : List Char × List Char) : String :=
  "✦ " ++ String.mk sec.1 ++ ":\n\n" ++
    String.join ((lineItems sec.2).map fun it =>
      "  • " ++ clean_markdown (String.mk it) ++ "\n") ++ "\n"

/-- `_format_features`. -/
def format_features (content : String) : String :=
  let sections := findSections content.data.length content.data
  featuresHeader ++ String.join (sections.map renderSection) ++ featuresFooter

/-- The content of `self.conversation_history[-2]`, second field (empty
when out of range; `_format_api` only reads it under a length guard). -/
def secondMostRecent (hist : List Turn) : String :=
  (hist.getD (hist.length - 2) ("", "")).2

/-- `_format_api`.  The 404 checklist test reads the conversation history
recorded so far; both it and the code-block example sit inside the
`if auth_section:` branch. -/
def format_api (hist : List Turn) (content : String) : String :=
  match authSection content with
  | none => apiHeader ++ apiFooter
  | some auth =>
    let ex :=
      match firstCodeBlock auth with
      | some cb => "Authentication Example:\n```" ++ pyStrip cb ++ "\n```\n\n"
      | none => ""
    let chk :=
      if 2 ≤ hist.length ∧ isSub "404" (pyLower (secondMostRecent hist)) = true then
        checklist404
      else ""
    apiHeader ++ ex ++ chk ++ apiFooter

/-- Titleized source name: `source.replace(".md", "").replace("_", " ").title()`. -/
def titleSource (source : String) : String :=
  pyTitle (pyReplace (pyReplace source ".md" "") "_" " ")

/-- `_format_general`. -/
def format_general (content : String) (source : Option String) : String :=
  let cleaned := clean_markdown content
  match source with
  | some src =>
    "From our " ++ titleSource src ++
      " documentation:\n\n" ++ cleaned ++ "\n\nWould you like more details on any specific aspect?"
  | none => cleaned

/-- `_format_content`: dispatch on the source filename. -/
def format_content (hist : List Turn) (content : String) (source : String) : String :=
  if source = "pricing.md" then format_pricing content
  else if source = "faq.md" then format_faq content
  else if source = "features.md" then format_features content
  else if source = "api.md" then format_api hist content
  else format_general content (some source)

/-! ## The knowledge store oracle and the response resolver

The chromadb collection is an external collaborator; it is modelled as a
record of oracles.  `getDocs` is `collection.get(ids=[id])["documents"]`
(a flat list of document texts), `query1` is the top-1 semantic query with
documents and metadatas (both nested lists, one inner list per query text),
and `query3` is the metadatas of the broader top-3 query used by
`_handle_no_match`.  `Except Unit` carries a raised exception. -/

/-- Metadata record attached to a stored document. -/
structure Meta where
  source : String
deriving Repr, DecidableEq

/-- Result shape of `collection.query` (nested lists). -/
structure QueryRes where
  documents : List (List String)
  metadatas : List (List Meta)
deriving Repr

/-- The external vector store, as the oracles the chatbot code consults. -/
structure Store where
  getDocs : String → Except Unit (List String)
  query1 : String → Except Unit QueryRes
  query3 : String → Except Unit (List (List Meta))

/-- Result of one `generate_response` call: reply text, source document
and the updated conversation history. -/
structure GenResult where
  reply : String
  source : Option String
  history : List Turn
deriving Repr

/-- `_update_conversation_history`: append, then truncate to the last six
entries (`self.conversation_history[-6:]`). -/
def hist_update (hist : List Turn) (role content : String) : List Turn :=
  let h1 := hist ++ [(role, content)]
  if h1.length > 6 then h1.drop (h1.length - 6) else h1

/-- Trigger keywords of `pricing.md`. -/
def pricingTriggers : List String := ["pricing", "plan", "cost", "subscription", "how much"]

/-- Trigger keywords of `faq.md`. -/
def faqTriggers : List String := ["faq", "question", "ask", "common queries"]

/-- Trigger keywords of `features.md`. -/
def featuresTriggers : List String := ["feature", "capability", "what can", "functionality"]

/-- Trigger keywords of `api.md`. -/
def apiTriggers : List String := ["api", "endpoint", "curl", "authenticate", "integration"]

/-- Python `doc_name.split(".")[0]`: the part before the first dot. -/
def stemOf (docName : String) : String :=
  String.mk (docName.data.takeWhile (fun c => c ≠ '.'))

/-- The first character of a document, as the one-character string that
`doc_content[0]` denotes in Python (`doc_content` is the document text). -/
def firstCharStr (s : String) : String :=
  match s.data with
  | c :: _ => String.mk [c]
  | [] => ""

/-- One iteration of the direct-match loop of `generate_response`: if a
trigger matches, fetch the document by identifier and run the formatter on
`doc_content[0]` — the first character of the fetched text.  Any exception
(including the `IndexError` of indexing an empty `documents` list) is
logged and the loop continues (`none`). -/
def tryDoc (st : Store) (docName : String) (triggers : List String)
    (fmt : String → String) (clean : String) : Option (String × String) :=
  if triggers.any (fun t => isSub t clean) then
    match st.getDocs (stemOf docName) with
    | .error _ => none
    | .ok [] => none
    | .ok (content :: _) =>
      if content = "" then none else some (fmt (firstCharStr content), docName)
  else none

/-- The direct-match loop, in the fixed declaration order of
`self.document_handlers`: pricing, faq, features, api. -/
def direct_match (st : Store) (hist : List Turn) (clean : String) :
    Option (String × String) :=
  match tryDoc st "pricing.md" pricingTriggers format_pricing clean with
  | some r => some r
  | none =>
    match tryDoc st "faq.md" faqTriggers format_faq clean with
    | some r => some r
    | none =>
      match tryDoc st "features.md" featuresTriggers format_features clean with
      | some r => some r
      | none => tryDoc st "api.md" apiTriggers (format_api hist) clean

/-- `_handle_no_match`: broader top-3 metadata-only query; list titleized
sources when any are found, full capability menu on failure or no result.
Python builds the suggestion set with `set(...)`, whose iteration order is
unspecified; it is modelled as first-occurrence order. -/
def handle_no_match (st : Store) (query : String) : String :=
  match st.query3 query with
  | .error _ => get_help_response
  | .ok metas =>
    match metas with
    | [] => get_help_response
    | inner :: _ =>
      match inner with
      | [] => get_help_response
      | _ :: _ =>
        let sources := (inner.map (fun m => titleSource m.source)).dedup
        noMatchHeader ++ joinWith "\n" (sources.map (fun s => "• " ++ s)) ++
          noMatchFooter

/-- The semantic-search stage of `generate_response` (the final `try`
block).  A raised query, an `IndexError` while indexing into the nested
result lists, or any other exception inside the block yields the fixed
error-recovery message. -/
def semanticStep (st : Store) (hist : List Turn) (clean : String) : GenResult :=
  match st.query1 clean with
  | .error _ => ⟨queryErrorMsg, none, hist⟩
  | .ok res =>
    match res.documents with
    | [] => ⟨handle_no_match st clean, none, hist⟩
    | inner :: _ =>
      match inner, res.metadatas with
      | content :: _, (m :: _) :: _ =>
        ⟨format_content hist content m.source, some m.source, hist⟩
      | _, _ => ⟨queryErrorMsg, none, hist⟩

/-- `generate_response` from `app/chatbot.py`. -/
def generate_response (st : Store) (initialized : Bool) (hist : List Turn)
    (userInput : String) : GenResult :=
  if initialized = false then ⟨initMsg, none, hist⟩
  else
    let clean := pyStrip (pyLower userInput)
    let hist1 := hist_update hist "user" clean
    if ["hi", "hello", "hey"].any (fun g => isSub g clean) then ⟨greetMsg, none, hist1⟩
    else if ["bye", "goodbye"].any (fun g => isSub g clean) then ⟨byeMsg, none, hist1⟩
    else if isSub "help" clean then ⟨get_help_response, none, hist1⟩
    else if ["who", "ceo", "founder", "team"].any (fun w => isSub w clean) then
      ⟨orgMsg, none, hist1⟩
    else
      match direct_match st hist1 clean with
      | some (resp, docName) => ⟨resp, some docName, hist1⟩
      | none => semanticStep st hist1 clean

/-- Every keyword any rule branch or trigger of `generate_response` tests. -/
def ruleKeywords : List String :=
  ["hi", "hello", "hey", "bye", "goodbye", "help", "who", "ceo", "founder", "team"] ++
    pricingTriggers ++ faqTriggers ++ featuresTriggers ++ apiTriggers

/-- An input (in cleaned form) that matches no rule branch and no trigger
keyword. -/
def ruleFree (clean : String) : Bool :=
  ruleKeywords.all (fun w => !(isSub w clean))

/-! ## `app/analytics.py` -/

/-- `classify_question`: first-match keyword routing over the lower-cased
input. -/
def classify_question (text : String) : String :=
  let t := pyLower text
  if ["price", "cost", "plan"].any (fun w => isSub w t) then "pricing"
  else if ["how", "setup", "install"].any (fun w => isSub w t) then "setup"
  else if ["error", "fix", "bug"].any (fun w => isSub w t) then "troubleshooting"
  else if ["api", "integrate", "connect"].any (fun w => isSub w t) then "integration"
  else if ["feature", "capability"].any (fun w => isSub w t) then "features"
  else "general"

/-- The classifier taxonomy, in the order the spec lists it. -/
def taxonomy : List String :=
  ["pricing", "setup", "troubleshooting", "integration", "features", "general"]

/-- The five keyword sets in the order the spec gives them. -/
def specCategories : List (String × List String) :=
  [("pricing", ["price", "cost", "plan"]),
   ("setup", ["how", "setup", "install"]),
   ("troubleshooting", ["error", "fix", "bug"]),
   ("integration", ["api", "integrate", "connect"]),
   ("features", ["feature", "capability"])]

/-- Modelled from the spec wording of 4.1: test the five keyword sets in
fixed order and return the first category whose set has a member occurring
as a substring of the lower-cased input; `general` when none match. -/
def classifySpec (text : String) : String :=
  let t := pyLower text
  match specCategories.find? (fun p => p.2.any (fun w => isSub w t)) with
  | some p => p.1
  | none => "general"

/-- One row of the `interactions` table.  `response_time` is a REAL column
holding a latency; it is stored untouched and modelled as a rational. -/
structure Interaction where
  timestamp : String
  session_id : String
  user_input : String
  bot_response : String
  satisfaction : Option Int
  question_type : String
  response_time : Option ℚ
  document_source : Option String
deriving Repr, DecidableEq

/-- The CHECK constraint `satisfaction BETWEEN 1 AND 5` of the schema
(NULL passes the check). -/
def satisfactionOk : Option Int → Bool
  | none => true
  | some n => decide (1 ≤ n ∧ n ≤ 5)

/-- `log_interaction` from `app/analytics.py`.  `fault` injects a sqlite
failure of the INSERT/commit; the CHECK-constraint violation is the one
deterministic sqlite error the statement itself can raise.  Either way the
`except sqlite3.Error` branch logs and returns `False`; on success exactly
one row is appended and the call returns `True`. -/
def log_interaction (db : List Interaction) (fault : Bool) (now : String)
    (session_id user_input bot_response : String) (satisfaction : Option Int)
    (response_time : Option ℚ) (document_source : Option String) :
    Bool × List Interaction :=
  let question_type := classify_question user_input
  let record : Interaction :=
    ⟨now, session_id, user_input, bot_response, satisfaction, question_type,
      response_time, document_source⟩
  if fault || !satisfactionOk satisfaction then (false, db)
  else (true, db ++ [record])

/-- The persistent sqlite schema state seen by `init_db`/`migrate_db`:
whether the database file exists, the rows of the `version` table (`none`
when the table itself is absent), and the existence flags of the
`interactions` table and its two indexes. -/
structure DBState where
  fileExists : Bool
  versionTable : Option (List Int)
  interactionsTable : Bool
  idxSession : Bool
  idxQuestionType : Bool
deriving Repr, DecidableEq

/-- `sqlite3.connect`: connecting to a missing file creates an empty
database. -/
def connectDB (s : DBState) : DBState :=
  if s.fileExists then s
  else ⟨true, none, false, false, false⟩

/-- `migrate_db` from `app/analytics.py` (fault-free run): below version 2
it creates the `interactions` table and both indexes (all guarded by
IF NOT EXISTS), then `UPDATE version SET version = ?` rewrites every row of
the `version` table. -/
def migrate_db (s : DBState) (fromVersion toVersion : Int) : DBState :=
  let s1 :=
    if fromVersion < 2 then
      { s with interactionsTable := true, idxSession := true, idxQuestionType := true }
    else s
  { s1 with versionTable := some ((s1.versionTable.getD []).map (fun _ => toVersion)) }

/-- `init_db` from `app/analytics.py` (fault-free run): create the
`version` table if needed, read the current version (0 when no row), insert
the 0 row only into a freshly created database, and migrate when below
`DB_VERSION = 2`. -/
def init_db (s0 : DBState) : DBState :=
  let isNew := !s0.fileExists
  let s1 := connectDB s0
  let s2 : DBState := { s1 with versionTable := some (s1.versionTable.getD []) }
  let rows := s2.versionTable.getD []
  let current : Int := (rows.head?).getD 0
  let s3 : DBState := if isNew then { s2 with versionTable := some (rows ++ [0]) } else s2
  if current < 2 then migrate_db s3 current 2 else s3

/-- The schema version an observer reads back: the first `version` row, or
0 when the file, the table or the row is missing. -/
def storedVersion (s : DBState) : Int :=
  if s.fileExists then ((s.versionTable.getD []).head?).getD 0 else 0

/-! ## Concrete fixtures for the witnesses and counterexamples -/

/-- A `pricing.md` document with a valid table after the Pricing Plans
heading. -/
def samplePricing : String :=
  "# Pricing Plans\n\n| Plan | Price |\n|---|---|\n| Basic | $10 |\n| Pro | $20 |\n\nContact sales for volume discounts.\n"

/-- A store holding exactly the sample pricing document. -/
def pricingStore : Store where
  getDocs id := if id = "pricing" then .ok [samplePricing] else .ok []
  query1 _ := .ok ⟨[[samplePricing]], [[⟨"pricing.md"⟩]]⟩
  query3 _ := .ok [[⟨"pricing.md"⟩]]

/-- A store whose top-1 query succeeds with an empty outer documents list.
This is the one result shape that makes `results['documents']` falsy and
routes resolution to `_handle_no_match`; it is used to exercise that branch
of the code, not as a model of an empty chroma index (see `IsEmptyStore`
for that). -/
def noDocsStore : Store where
  getDocs _ := .ok []
  query1 _ := .ok ⟨[], []⟩
  query3 _ := .ok [[]]

/-- An empty chroma index whose queries raise: older chromadb raises
NotEnoughElementsException when `n_results` exceeds the index size. -/
def emptyRaisingStore : Store where
  getDocs _ := .ok []
  query1 _ := .error ()
  query3 _ := .error ()

/-- An empty chroma index whose queries succeed: the result carries one
empty inner list per query text (`[[]]`), the same nested `query` shape —
as opposed to the flat `get` shape — that the direct-match indexing slip
relies on. -/
def emptyNestedStore : Store where
  getDocs _ := .ok []
  query1 _ := .ok ⟨[[]], [[]]⟩
  query3 _ := .ok [[]]

/-- A store that is empty at the result shapes chromadb actually produces:
direct fetches find nothing, and each semantic query either raises (older
chroma, `n_results` larger than the index) or succeeds with one empty
inner list per query text. -/
def IsEmptyStore (st : Store) : Prop :=
  ∀ q : String,
    st.getDocs q = .ok [] ∧
      (st.query1 q = .error () ∨ st.query1 q = .ok ⟨[[]], [[]]⟩) ∧
      (st.query3 q = .error () ∨ st.query3 q = .ok [[]])

/-- A store whose top-1 semantic query raises, while the broader top-3
metadata query of the no-match handler would succeed with one source. -/
def errStore : Store where
  getDocs _ := .ok []
  query1 _ := .error ()
  query3 _ := .ok [[⟨"pricing.md"⟩]]

/-- A conversation history whose two most recent turns both mention 404. -/
def hist404 : List Turn := [("user", "i still get 404"), ("user", "404 again")]

/-- Document content with no Authentication section. -/
def noAuthContent : String := "API overview without the section.\n"

/-- Document content with an Authentication section and a code block. -/
def authContent : String :=
  "## Authentication\nUse an API key.\n```\ncurl -H key: value api.vahan.ai\n```\nMore text.\n"

/-! ## Theorems -/

/-- `subAux` decides the `List.IsInfix` relation. -/
theorem subAux_iff (p l : List Char) : subAux p l = true ↔ p <:+: l := by
  induction l with
  | nil => simp [subAux, List.isEmpty_iff, List.infix_nil]
  | cons c rest ih =>
    simp [subAux, Bool.or_eq_true, List.isPrefixOf_iff_prefix, ih,
      List.infix_cons_iff]

/-- `isSub` decides substring containment on the character lists. -/
theorem isSub_iff (p s : String) : isSub p s = true ↔ p.data <:+: s.data :=
  subAux_iff p.data s.data

/-- A string is a substring of any extension on both sides. -/
theorem isSub_append_mid (p x y : String) : isSub p (x ++ p ++ y) = true := by
  rw [isSub_iff]
  exact ⟨x.data, y.data, by simp [String.data_append]⟩

/-- Entries of an updated history come from the old history or are the new
entry. -/
theorem mem_hist_update {t : Turn} {hist : List Turn} {r c : String}
    (ht : t ∈ hist_update hist r c) : t ∈ hist ++ [(r, c)] := by
  simp only [hist_update] at ht
  split at ht
  · exact List.mem_of_mem_drop ht
  · exact ht

/-- The semantic stage never changes the history it is given. -/
theorem semanticStep_history (st : Store) (h : List Turn) (c : String) :
    (semanticStep st h c).history = h := by
  unfold semanticStep
  repeat' split
  all_goals rfl

/-- The only history effect of `generate_response` is the single
`_update_conversation_history("user", clean_input)` call, performed exactly
when the chatbot is initialized. -/
theorem generate_response_history (st : Store) (b : Bool) (hist : List Turn)
    (input : String) :
    (generate_response st b hist input).history =
      if b then hist_update hist "user" (pyStrip (pyLower input)) else hist := by
  cases b
  · rfl
  · simp only [generate_response, if_true]
    rw [if_neg (by decide : ¬ (true = false))]
    split_ifs <;> try rfl
    split
    · rfl
    · exact semanticStep_history _ _ _

/-- When the cleaned input matches no rule branch and no trigger keyword,
`generate_response` reaches the semantic-search stage. -/
theorem generate_response_semantic (st : Store) (hist : List Turn) (input : String)
    (hrf : ruleFree (pyStrip (pyLower input)) = true) :
    generate_response st true hist input =
      semanticStep st (hist_update hist "user" (pyStrip (pyLower input)))
        (pyStrip (pyLower input)) := by
  have key : ∀ w ∈ ruleKeywords, isSub w (pyStrip (pyLower input)) = false := by
    intro w hw
    simpa using List.all_eq_true.mp hrf w hw
  simp only [generate_response, direct_match, tryDoc,
    List.any_cons, List.any_nil, Bool.or_false,
    pricingTriggers, faqTriggers, featuresTriggers, apiTriggers,
    key "hi" (by decide), key "hello" (by decide), key "hey" (by decide),
    key "bye" (by decide), key "goodbye" (by decide), key "help" (by decide),
    key "who" (by decide), key "ceo" (by decide), key "founder" (by decide),
    key "team" (by decide),
    key "pricing" (by decide), key "plan" (by decide), key "cost" (by decide),
    key "subscription" (by decide), key "how much" (by decide),
    key "faq" (by decide), key "question" (by decide), key "ask" (by decide),
    key "common queries" (by decide),
    key "feature" (by decide), key "capability" (by decide),
    key "what can" (by decide), key "functionality" (by decide),
    key "api" (by decide), key "endpoint" (by decide), key "curl" (by decide),
    key "authenticate" (by decide), key "integration" (by decide)]
  simp

/-- C4: `classify_question` is a total, deterministic function (a pure Lean
function of its input): for every input text it returns exactly one of the
six fixed categories, testing the five keyword sets in the fixed order
pricing, setup, troubleshooting, integration, features on the lower-cased
input, returning the first category with a keyword present as a substring,
and "general" when none match. -/
theorem C4_classifier_total_first_match (text : String) :
    classify_question text ∈ taxonomy ∧ classify_question text = classifySpec text := by
  unfold classify_question classifySpec specCategories taxonomy
  rcases h1 : (["price", "cost", "plan"].any fun w => isSub w (pyLower text)) with _ | _ <;>
    rcases h2 : (["how", "setup", "install"].any fun w => isSub w (pyLower text)) with _ | _ <;>
      rcases h3 : (["error", "fix", "bug"].any fun w => isSub w (pyLower text)) with _ | _ <;>
        rcases h4 : (["api", "integrate", "connect"].any fun w => isSub w (pyLower text)) with _ | _ <;>
          rcases h5 : (["feature", "capability"].any fun w => isSub w (pyLower text)) with _ | _ <;>
            simp [List.find?, h1, h2, h3, h4, h5]

/-- C5: the conversation history is a sliding window: an update always
leaves at most six entries, the new entry is appended most-recent-last, and
recording seven turns from an empty history retains exactly the last six
(the oldest turn is truncated away). -/
theorem C5_history_sliding_window (hist : List Turn) (r c : String)
    (ts : List Turn) (h7 : ts.length = 7) :
    (hist_update hist r c).length ≤ 6 ∧
    (hist_update hist r c).getLast? = some (r, c) ∧
    ts.foldl (fun acc p => hist_update acc p.1 p.2) [] = ts.drop 1 := by
  refine ⟨?_, ?_, ?_⟩
  · simp only [hist_update]
    split
    · rename_i hgt
      simp only [List.length_drop, List.length_append, List.length_cons,
        List.length_nil] at *
      omega
    · rename_i hle
      simp only [List.length_append, List.length_cons, List.length_nil] at *
      omega
  · simp only [hist_update]
    split
    · rename_i hgt
      rw [List.getLast?_eq_getElem?, List.getElem?_drop, List.length_drop]
      have hlen : (hist ++ [(r, c)]).length = hist.length + 1 := by simp
      have harith :
          (hist ++ [(r, c)]).length - 6 + ((hist ++ [(r, c)]).length - ((hist ++ [(r, c)]).length - 6) - 1) =
            (hist ++ [(r, c)]).length - 1 := by omega
      rw [harith, ← List.getLast?_eq_getElem?]
      simp
    · simp
  · rcases ts with _ | ⟨a1, ts⟩; · simp only [List.length_nil] at h7; omega
    rcases ts with _ | ⟨a2, ts⟩; · simp only [List.length_cons, List.length_nil] at h7; omega
    rcases ts with _ | ⟨a3, ts⟩; · simp only [List.length_cons, List.length_nil] at h7; omega
    rcases ts with _ | ⟨a4, ts⟩; · simp only [List.length_cons, List.length_nil] at h7; omega
    rcases ts with _ | ⟨a5, ts⟩; · simp only [List.length_cons, List.length_nil] at h7; omega
    rcases ts with _ | ⟨a6, ts⟩; · simp only [List.length_cons, List.length_nil] at h7; omega
    rcases ts with _ | ⟨a7, ts⟩; · simp only [List.length_cons, List.length_nil] at h7; omega
    rcases ts with _ | ⟨a8, ts⟩
    · simp [hist_update]
    · simp only [List.length_cons] at h7; omega

/-- C5 witness at a concrete history and seven concrete turns. -/
theorem C5_witness :
    (hist_update [] "user" "x").length ≤ 6 ∧
    (hist_update [] "user" "x").getLast? = some ("user", "x") ∧
    ([("user", "t1"), ("user", "t2"), ("user", "t3"), ("user", "t4"), ("user", "t5"),
        ("user", "t6"), ("user", "t7")] : List Turn).foldl
        (fun acc p => hist_update acc p.1 p.2) [] =
      ([("user", "t1"), ("user", "t2"), ("user", "t3"), ("user", "t4"), ("user", "t5"),
        ("user", "t6"), ("user", "t7")] : List Turn).drop 1 :=
  C5_history_sliding_window [] "user" "x"
    [("user", "t1"), ("user", "t2"), ("user", "t3"), ("user", "t4"), ("user", "t5"),
      ("user", "t6"), ("user", "t7")] (by rfl)

/-- C9: for every initialized chatbot and every input whose cleaned
(lower-cased, stripped) form contains "hi", "hello" or "hey" anywhere as a
substring — including inside other words — `generate_response` returns the
fixed greeting menu with source none, regardless of the store and of any
trigger keyword also present: the greeting check pre-empts every later
pipeline stage. -/
theorem C9_greeting_preempts (st : Store) (hist : List Turn) (input : String)
    (hg : (["hi", "hello", "hey"].any fun g => isSub g (pyStrip (pyLower input))) = true) :
    generate_response st true hist input =
      ⟨greetMsg, none, hist_update hist "user" (pyStrip (pyLower input))⟩ := by
  simp only [generate_response]
  rw [if_neg (by decide : ¬ (true = false)), if_pos hg]

/-- C9 witness: "which pricing plan" contains "hi" inside "which" and the
trigger keywords "pricing" and "plan", yet the greeting menu is returned. -/
theorem C9_witness :
    generate_response pricingStore true [] "which pricing plan" =
      ⟨greetMsg, none, [("user", "which pricing plan")]⟩ ∧
    isSub "pricing" "which pricing plan" = true := by
  constructor
  · rw [C9_greeting_preempts pricingStore [] "which pricing plan" (by rfl)]
    rfl
  · rfl

/-- C3 counterexample: at the gibberish input "qqq" and an empty store in
either shape chromadb actually produces — the query raises on an empty
index, or it returns one empty inner list per query text — the reply is
the fixed error-recovery message, not the help/capability menu the claim
states (the nested shape makes `results['documents']` truthy, so indexing
`[0][0]` raises IndexError into the same `except` branch). -/
theorem C3_counterexample :
    generate_response emptyNestedStore true [] "qqq" =
      ⟨queryErrorMsg, none, [("user", "qqq")]⟩ ∧
    generate_response emptyRaisingStore true [] "qqq" =
      ⟨queryErrorMsg, none, [("user", "qqq")]⟩ ∧
    queryErrorMsg ≠ get_help_response := by
  refine ⟨rfl, rfl, by decide⟩

/-- C3 as amended: for every input that matches no rule branch and no
trigger keyword, resolving it against an empty knowledge store does not
raise (every exception in the semantic stage is caught; the model is a
total function) but returns the fixed error-recovery message with source
none, not the help/capability menu: on an empty index the top-1 query
either raises or yields one empty inner list per query text, and both
paths end in the `except` branch. -/
theorem C3_gibberish_empty_store (st : Store) (hist : List Turn) (input : String)
    (hes : IsEmptyStore st) (hrf : ruleFree (pyStrip (pyLower input)) = true) :
    generate_response st true hist input =
      ⟨queryErrorMsg, none, hist_update hist "user" (pyStrip (pyLower input))⟩ := by
  rw [generate_response_semantic st hist input hrf]
  obtain ⟨hg, h1, h3⟩ := hes (pyStrip (pyLower input))
  rcases h1 with h | h <;> simp only [semanticStep, h]

/-- C3 witness: the amended statement applied to both empty-store shapes
at the concrete gibberish input "qqq". -/
theorem C3_witness :
    generate_response emptyNestedStore true [] "qqq" =
      ⟨queryErrorMsg, none, [("user", "qqq")]⟩ ∧
    generate_response emptyRaisingStore true [] "qqq" =
      ⟨queryErrorMsg, none, [("user", "qqq")]⟩ := by
  constructor
  · rw [C3_gibberish_empty_store emptyNestedStore [] "qqq"
      (fun q => ⟨rfl, Or.inr rfl, Or.inr rfl⟩) (by rfl)]
    rfl
  · rw [C3_gibberish_empty_store emptyRaisingStore [] "qqq"
      (fun q => ⟨rfl, Or.inl rfl, Or.inl rfl⟩) (by rfl)]
    rfl

/-- C2 counterexample: with a store whose top-1 query raises (and whose
broader top-3 query would succeed with one source), the resolver does not
fall back to the no-match handler as the claim states: it returns the fixed
error-recovery message, which is neither the suggestion list the handler
would produce nor the capability menu. -/
theorem C2_counterexample :
    generate_response errStore true [] "zzz" =
      ⟨queryErrorMsg, none, [("user", "zzz")]⟩ ∧
    isSub "You might explore" (handle_no_match errStore "zzz") = true ∧
    queryErrorMsg ≠ handle_no_match errStore "zzz" ∧
    queryErrorMsg ≠ get_help_response := by
  refine ⟨rfl, rfl, by decide, by decide⟩

/-- C2 as amended: if the top-1 semantic query raises, the resolver returns
the fixed error-recovery message with source none; the no-match handler
(broader top-3 metadata query with titleized suggestions, else the full
capability menu) runs only when the query succeeds with an empty document
list. -/
theorem C2_query_error_fallback (st : Store) (hist : List Turn) (input : String)
    (hrf : ruleFree (pyStrip (pyLower input)) = true) :
    (∀ e : Unit, st.query1 (pyStrip (pyLower input)) = .error e →
      generate_response st true hist input =
        ⟨queryErrorMsg, none, hist_update hist "user" (pyStrip (pyLower input))⟩) ∧
    (∀ res : QueryRes, st.query1 (pyStrip (pyLower input)) = .ok res →
      res.documents = [] →
      generate_response st true hist input =
        ⟨handle_no_match st (pyStrip (pyLower input)), none,
          hist_update hist "user" (pyStrip (pyLower input))⟩) := by
  constructor
  · intro e he
    rw [generate_response_semantic st hist input hrf]
    simp only [semanticStep, he]
  · intro res hok hdocs
    rw [generate_response_semantic st hist input hrf]
    simp only [semanticStep, hok, hdocs]

/-- C2 witness: both amended branches at concrete stores and input. -/
theorem C2_witness :
    generate_response errStore true [] "zzz" = ⟨queryErrorMsg, none, [("user", "zzz")]⟩ ∧
    generate_response noDocsStore true [] "zzz" =
      ⟨handle_no_match noDocsStore "zzz", none, [("user", "zzz")]⟩ := by
  constructor
  · rw [(C2_query_error_fallback errStore [] "zzz" (by rfl)).1 () (by rfl)]
    rfl
  · rw [(C2_query_error_fallback noDocsStore [] "zzz" (by rfl)).2 ⟨[], []⟩ (by rfl) (by rfl)]
    rfl

/-- C1 evidence: with a `pricing.md` document holding a valid table after
the Pricing Plans heading in the store, the input "what is the pricing
plan" takes the direct-match branch and returns source "pricing.md", but
the reply is the generic pricing fallback, which does not contain "pricing
plans": the direct-match code indexes `doc_content[0]` — the first
character of the fetched document text — so the table pattern of
`_format_pricing` cannot match.  Run on the full document, the formatter
does produce a reply containing "pricing plans". -/
theorem C1_first_char_divergence :
    generate_response pricingStore true [] "what is the pricing plan" =
      ⟨pricingFallback, some "pricing.md", [("user", "what is the pricing plan")]⟩ ∧
    isSub "pricing plans" pricingFallback = false ∧
    isSub "pricing plans" (format_pricing samplePricing) = true ∧
    (findPricingTable samplePricing).isSome = true ∧
    format_pricing (firstCharStr samplePricing) = pricingFallback := by
  exact ⟨rfl, rfl, rfl, rfl, rfl⟩

/-- C10: the conversation history records only user turns:
`generate_response` appends exactly the one entry
`("user", cleaned input)` when initialized (and nothing otherwise), so a
history whose entries all carry role "user" keeps that property. -/
theorem C10_history_only_user_turns (st : Store) (b : Bool) (hist : List Turn)
    (input : String) (hroles : ∀ t ∈ hist, t.1 = "user") :
    (generate_response st b hist input).history =
      (if b then hist_update hist "user" (pyStrip (pyLower input)) else hist) ∧
    ∀ t ∈ (generate_response st b hist input).history, t.1 = "user" := by
  refine ⟨generate_response_history st b hist input, ?_⟩
  rw [generate_response_history st b hist input]
  cases b
  · simpa using hroles
  · simp only [if_true]
    intro t ht
    have := mem_hist_update ht
    rcases List.mem_append.mp this with h | h
    · exact hroles t h
    · simp only [List.mem_singleton] at h
      rw [h]

/-- C10 witness at a concrete store, history and input. -/
theorem C10_witness :
    (generate_response pricingStore true [("user", "earlier turn")] "hello").history =
      (if true then
          hist_update [("user", "earlier turn")] "user" (pyStrip (pyLower "hello"))
        else [("user", "earlier turn")]) ∧
    ∀ t ∈ (generate_response pricingStore true [("user", "earlier turn")] "hello").history,
      t.1 = "user" :=
  C10_history_only_user_turns pricingStore true [("user", "earlier turn")] "hello"
    (by decide)

/-- C6 counterexample: both of the two most recent turns mention "404", the
API formatter runs, and yet the checklist is absent, because the document
content has no Authentication section and the 404 test sits inside the
`if auth_section:` branch. -/
theorem C6_counterexample :
    2 ≤ hist404.length ∧
    isSub "404" (pyLower (hist404.getD 0 ("", "")).2) = true ∧
    isSub "404" (pyLower (hist404.getD 1 ("", "")).2) = true ∧
    isSub checklist404 (format_api hist404 noAuthContent) = false := by
  exact ⟨by decide, rfl, rfl, rfl⟩

/-- C6 as amended: when the document content contains an Authentication
section and the two most recent conversation turns mention "404" (the code
tests the second most recent), the formatted output includes the 404
troubleshooting checklist; when neither of the two most recent turns
mentions "404", the checklist is not appended — the output is exactly the
output computed with an empty history. -/
theorem C6_api_checklist (content : String) (hist : List Turn) :
    ((authSection content).isSome = true → 2 ≤ hist.length →
      isSub "404" (pyLower (secondMostRecent hist)) = true →
      isSub checklist404 (format_api hist content) = true) ∧
    (isSub "404" (pyLower (secondMostRecent hist)) = false →
      format_api hist content = format_api [] content) := by
  constructor
  · intro hauth hlen h404
    rcases ha : authSection content with _ | auth
    · rw [ha] at hauth; simp at hauth
    · simp only [format_api, ha]
      rw [if_pos ⟨hlen, h404⟩]
      rcases hcb : firstCodeBlock auth with _ | cb
      · simpa using isSub_append_mid checklist404 (apiHeader ++ "") apiFooter
      · simpa [String.append_assoc] using
          isSub_append_mid checklist404
            (apiHeader ++ ("Authentication Example:\n```" ++ pyStrip cb ++ "\n```\n\n"))
            apiFooter
  · intro h404
    rcases ha : authSection content with _ | auth
    · simp only [format_api, ha]
    · simp only [format_api, ha]
      rw [if_neg (by rintro ⟨_, hc⟩; rw [h404] at hc; exact Bool.false_ne_true hc),
        if_neg (by rintro ⟨hl, _⟩; simp at hl)]

/-- C6 witness: both amended branches at concrete content and histories. -/
theorem C6_witness :
    isSub checklist404 (format_api hist404 authContent) = true ∧
    format_api [("user", "hello there"), ("user", "ok thanks")] authContent =
      format_api [] authContent := by
  constructor
  · exact (C6_api_checklist authContent hist404).1 (by rfl) (by decide) (by rfl)
  · exact (C6_api_checklist authContent
      [("user", "hello there"), ("user", "ok thanks")]).2 (by rfl)

/-- C7: `log_interaction` always returns a boolean (it is a total function
of its inputs): a storage failure is reported as `false` with the database
unchanged — never raised — and on success exactly one record is appended,
carrying the current timestamp and the category computed by the
classifier, and the call returns `true`. -/
theorem C7_log_boolean_outcome (db : List Interaction) (fault : Bool)
    (now sid ui br : String) (sat : Option Int) (rt : Option ℚ) (ds : Option String) :
    ((log_interaction db fault now sid ui br sat rt ds).1 = false →
      (log_interaction db fault now sid ui br sat rt ds).2 = db) ∧
    (fault = true → (log_interaction db fault now sid ui br sat rt ds).1 = false) ∧
    ((log_interaction db fault now sid ui br sat rt ds).1 = true →
      (log_interaction db fault now sid ui br sat rt ds).2 =
        db ++ [⟨now, sid, ui, br, sat, classify_question ui, rt, ds⟩]) := by
  unfold log_interaction
  by_cases hc : (fault || !satisfactionOk sat) = true
  · rw [if_pos hc]
    refine ⟨fun _ => rfl, fun _ => rfl, fun h => absurd h (by simp)⟩
  · rw [if_neg hc]
    have hf : fault = false := by
      cases fault
      · rfl
      · exact absurd (by simp) hc
    exact ⟨fun h => absurd h (by simp), fun h => absurd h (by rw [hf]; decide),
      fun _ => rfl⟩

/-- C7 witness: an injected storage failure returns `false` and leaves the
log unchanged; a fault-free call appends one classified record and returns
`true`. -/
theorem C7_witness :
    ((log_interaction [] true "t1" "s" "u" "b" none none none).1 = false ∧
      (log_interaction [] true "t1" "s" "u" "b" none none none).2 = []) ∧
    (log_interaction [] false "t0" "s1" "how do I install" "resp" (some 3) none none).2 =
      [⟨"t0", "s1", "how do I install", "resp", some 3, "setup", none, none⟩] := by
  refine ⟨⟨?_, ?_⟩, ?_⟩
  · exact (C7_log_boolean_outcome [] true "t1" "s" "u" "b" none none none).2.1 rfl
  · exact (C7_log_boolean_outcome [] true "t1" "s" "u" "b" none none none).1 rfl
  · rw [(C7_log_boolean_outcome [] false "t0" "s1" "how do I install" "resp" (some 3)
      none none).2.2 rfl]
    rfl

/-- Each `init_db` run is idempotent on the whole schema state. -/
theorem init_db_idem (s : DBState) : init_db (init_db s) = init_db s := by
  rcases s with ⟨fe, vt, it, i1, i2⟩
  cases fe
  · rfl
  · rcases vt with _ | rows
    · rfl
    · rcases rows with _ | ⟨v, vs⟩
      · rfl
      · by_cases hv : v < 2
        · simp [init_db, connectDB, migrate_db, hv]
        · simp [init_db, connectDB, migrate_db, hv]

/-- One `init_db` run never lowers the stored schema version. -/
theorem storedVersion_step (s : DBState) : storedVersion s ≤ storedVersion (init_db s) := by
  rcases s with ⟨fe, vt, it, i1, i2⟩
  cases fe
  · simp [storedVersion, init_db, connectDB, migrate_db]
  · rcases vt with _ | rows
    · simp [storedVersion, init_db, connectDB, migrate_db]
    · rcases rows with _ | ⟨v, vs⟩
      · simp [storedVersion, init_db, connectDB, migrate_db]
      · by_cases hv : v < 2
        · simp [storedVersion, init_db, connectDB, migrate_db, hv]
          omega
        · simp [storedVersion, init_db, connectDB, migrate_db, hv]

/-- C8: running the migration twice in succession is idempotent — the
second `init_db` run leaves the schema version, the table and the indexes
exactly as the first left them (and, the model being a total function, does
not raise) — and across any sequence of `init_db` calls the stored schema
version is monotonically non-decreasing. -/
theorem C8_migration_idempotent_monotone (s : DBState) (m n : Nat) (hmn : m ≤ n) :
    init_db (init_db s) = init_db s ∧
    storedVersion s ≤ storedVersion (init_db s) ∧
    storedVersion (init_db^[m] s) ≤ storedVersion (init_db^[n] s) := by
  refine ⟨init_db_idem s, storedVersion_step s, ?_⟩
  induction n, hmn using Nat.le_induction with
  | base => exact le_refl _
  | succ n hmn ih =>
    refine ih.trans ?_
    rw [Function.iterate_succ_apply']
    exact storedVersion_step _

/-- C8 witness: a fresh database, migrated, re-migrated, and iterated. -/
theorem C8_witness :
    init_db (init_db ⟨false, none, false, false, false⟩) =
      init_db ⟨false, none, false, false, false⟩ ∧
    storedVersion ⟨false, none, false, false, false⟩ ≤
      storedVersion (init_db ⟨false, none, false, false, false⟩) ∧
    storedVersion (init_db^[1] ⟨false, none, false, false, false⟩) ≤
      storedVersion (init_db^[3] ⟨false, none, false, false, false⟩) :=
  C8_migration_idempotent_monotone ⟨false, none, false, false, false⟩ 1 3 (by decide)

end Vahan
